import Mathlib

/-!
Shallow embedding of the ASGenius analysis core: the localStorage-backed
persistence layer of src/lib/storage.ts and the score calculator and
post-parse override step of src/lib/gemini.ts, together with theorems
settling the frozen claims about them.
-/

namespace ASGenius

/-- Binary greenwashing label stored with each analysis result
(storage.ts, interface AnalysisResult). -/
inductive Classification where
  | Major : Classification
  | Minor : Classification
deriving DecidableEq, Repr

/-- An analysis result persisted per report id: a label and a confidence
score (storage.ts, interface AnalysisResult). -/
structure AnalysisResult where
  classification : Classification
  confidenceScore : Int
deriving DecidableEq, Repr

/-- A user-defined section grouping report ids (storage.ts, interface
Section). -/
structure Sect where
  id : String
  name : String
  reports : List String
deriving DecidableEq, Repr

/-- One localStorage slot as seen through getItem plus JSON.parse: the key
may be absent (getItem returns null and the fallback literal is used), hold
a parseable value, or hold text that JSON.parse rejects. -/
inductive StoreCell (α : Type) where
  | absent : StoreCell α
  | stored : α → StoreCell α
  | corrupt : StoreCell α
deriving DecidableEq, Repr

/-- The browser localStorage state visible to storage.ts: its two keys,
plus flags modelling a storage layer whose getItem, or setItem and
removeItem, calls throw. -/
structure LocalStorage where
  readFails : Bool
  writeFails : Bool
  analysisResults : StoreCell (List (String × AnalysisResult))
  sections : StoreCell (List Sect)
deriving DecidableEq, Repr

/-- Reading one key inside a try block: getItem throwing or JSON.parse
throwing takes the error branch; an absent key parses the fallback
default. -/
def readCell {α : Type} (readFails : Bool) (cell : StoreCell α) (dflt : α) :
    Except Unit α :=
  if readFails then Except.error ()
  else
    match cell with
    | StoreCell.absent => Except.ok dflt
    | StoreCell.stored v => Except.ok v
    | StoreCell.corrupt => Except.error ()

/-- JS object indexing results[fileId]: the value at the key, if any. -/
def lookupR (m : List (String × AnalysisResult)) (k : String) :
    Option AnalysisResult :=
  match m with
  | [] => none
  | p :: rest => if p.1 = k then some p.2 else lookupR rest k

/-- JS object assignment existingResults[fileId] = result: replace the
value in place when the key exists, append the pair otherwise. -/
def setKey (m : List (String × AnalysisResult)) (k : String)
    (v : AnalysisResult) : List (String × AnalysisResult) :=
  match m with
  | [] => [(k, v)]
  | p :: rest => if p.1 = k then (k, v) :: rest else p :: setKey rest k v

/-- JS delete results[reportId]: drop the key, keeping the others in
order. -/
def removeKey (m : List (String × AnalysisResult)) (k : String) :
    List (String × AnalysisResult) :=
  m.filter (fun p => p.1 != k)

/-- storage.ts saveAnalysisResult: rereads the stored map, forces the
classification from the confidence score at threshold 55, writes the
updated map back, and turns any storage failure into a thrown
"Failed to save analysis result". -/
def saveAnalysisResult (fileId : String) (result : AnalysisResult)
    (st : LocalStorage) : Except String LocalStorage :=
  match readCell st.readFails st.analysisResults [] with
  | Except.error _ => Except.error "Failed to save analysis result"
  | Except.ok existingResults =>
    let result1 :=
      if result.confidenceScore > 55 then
        { result with classification := Classification.Major }
      else
        { result with classification := Classification.Minor }
    let updated := setKey existingResults fileId result1
    if st.writeFails then Except.error "Failed to save analysis result"
    else Except.ok { st with analysisResults := StoreCell.stored updated }

/-- storage.ts getAnalysisResult: reads the stored map and returns the
record at the file id unchanged, with no recomputation; any storage error
yields null. The function performs no setItem, so the state component is
returned as received. -/
def getAnalysisResult (fileId : String) (st : LocalStorage) :
    Option AnalysisResult × LocalStorage :=
  match readCell st.readFails st.analysisResults [] with
  | Except.error _ => (none, st)
  | Except.ok results => (lookupR results fileId, st)

/-- storage.ts getAllAnalysisResults: reads the stored map and, on the
returned copy, recomputes every record's classification from its
confidence score at threshold 55; any storage error yields the empty map.
The function performs no setItem. -/
def getAllAnalysisResults (st : LocalStorage) :
    List (String × AnalysisResult) × LocalStorage :=
  match readCell st.readFails st.analysisResults [] with
  | Except.error _ => ([], st)
  | Except.ok results =>
    (results.map (fun p =>
      if p.2.confidenceScore > 55 then
        (p.1, { p.2 with classification := Classification.Major })
      else
        (p.1, { p.2 with classification := Classification.Minor })), st)

/-- storage.ts clearAllAnalysisResults: removes the analysis-results
key; a storage failure is caught and logged, not rethrown, so the caller
always sees a normal return. -/
def clearAllAnalysisResults (st : LocalStorage) :
    Except String LocalStorage :=
  if st.writeFails then Except.ok st
  else Except.ok { st with analysisResults := StoreCell.absent }

/-- storage.ts getSections: parses the sections key, returning the empty
list on any storage or parse error. -/
def getSections (st : LocalStorage) : List Sect :=
  match readCell st.readFails st.sections [] with
  | Except.error _ => []
  | Except.ok sections => sections

/-- storage.ts removeReportFromAllSections: filters the report id out of
every section's member list and writes the sections back; a write failure
is rethrown as "Failed to remove report from all sections". -/
def removeReportFromAllSections (reportId : String) (st : LocalStorage) :
    Except String LocalStorage :=
  let sections := getSections st
  let updated := sections.map (fun s =>
    { s with reports := s.reports.filter (fun id => id != reportId) })
  if st.writeFails then
    Except.error "Failed to remove report from all sections"
  else Except.ok { st with sections := StoreCell.stored updated }

/-- Mutating the Sect object returned by Array.prototype.find updates, in
the snapshot array it was found in, the first element with the matching
id. -/
def updateFirstSect (sections : List Sect) (sectionId : String)
    (f : Sect → Sect) : List Sect :=
  match sections with
  | [] => []
  | s :: rest =>
    if s.id = sectionId then f s :: rest
    else s :: updateFirstSect rest sectionId f

/-- storage.ts addReportToSection: snapshots the sections, finds the
target in the snapshot, runs removeReportFromAllSections against the
store, then pushes the report id into the snapshot's copy of the target
and writes the whole stale snapshot back, but only when the snapshot's
target did not already contain the id; any thrown error becomes
"Failed to add report to section". -/
def addReportToSection (reportId : String) (sectionId : String)
    (st : LocalStorage) : Except String LocalStorage :=
  let sections := getSections st
  match sections.find? (fun s => s.id == sectionId) with
  | none => Except.ok st
  | some sec =>
    match removeReportFromAllSections reportId st with
    | Except.error _ => Except.error "Failed to add report to section"
    | Except.ok st1 =>
      if sec.reports.contains reportId then Except.ok st1
      else
        let updated := updateFirstSect sections sectionId (fun s =>
          { s with reports := s.reports ++ [reportId] })
        if st1.writeFails then
          Except.error "Failed to add report to section"
        else Except.ok { st1 with sections := StoreCell.stored updated }

/-- storage.ts deleteReport: removes the report's analysis record when
present, then removes the report from all sections; any storage failure is
rethrown as "Failed to delete report". -/
def deleteReport (reportId : String) (st : LocalStorage) :
    Except String LocalStorage :=
  match readCell st.readFails st.analysisResults [] with
  | Except.error _ => Except.error "Failed to delete report"
  | Except.ok results =>
    let step1 : Except Unit LocalStorage :=
      match lookupR results reportId with
      | some _ =>
        if st.writeFails then Except.error ()
        else Except.ok
          { st with analysisResults :=
              StoreCell.stored (removeKey results reportId) }
      | none => Except.ok st
    match step1 with
    | Except.error _ => Except.error "Failed to delete report"
    | Except.ok st1 =>
      match removeReportFromAllSections reportId st1 with
      | Except.error _ => Except.error "Failed to delete report"
      | Except.ok st2 => Except.ok st2

/-- One flagged statement as consumed by the score calculator; risk_level
carries the raw JSON value, possibly absent or an unrecognized string. -/
structure FlaggedStatement where
  risk_level : Option String
deriving DecidableEq, Repr

/-- The majorCount of gemini.ts calculateGreenwashingScore: how many
flagged statements have risk_level exactly "Major". -/
def majorCount (flaggedStatements : List FlaggedStatement) : Int :=
  ((flaggedStatements.filter
    (fun s => decide (s.risk_level = some "Major"))).length : Int)

/-- The minorCount of gemini.ts calculateGreenwashingScore: how many
flagged statements have risk_level exactly "Minor". -/
def minorCount (flaggedStatements : List FlaggedStatement) : Int :=
  ((flaggedStatements.filter
    (fun s => decide (s.risk_level = some "Minor"))).length : Int)

/-- gemini.ts calculateGreenwashingScore: 0 when there are no flagged
statements, otherwise a base of 10 plus 15 per Major and 5 per Minor
entry, capped at 100; entries with any other or missing risk_level count
for neither. -/
def calculateGreenwashingScore (flaggedStatements : List FlaggedStatement) :
    Int :=
  if flaggedStatements.isEmpty then 0
  else
    min (10 + majorCount flaggedStatements * 15 +
      minorCount flaggedStatements * 5) 100

/-- Shape of a successfully parsed model response as post-processed by
gemini.ts analyzeESGReport: the model-supplied score and label, and the
flagged_statements field when present (a missing field is falsy in the
JS guard; a present array, even empty, is truthy). -/
structure ParsedResult where
  confidence_score : Int
  classification : String
  flagged_statements : Option (List FlaggedStatement)
deriving DecidableEq, Repr

/-- The post-parse override step of gemini.ts analyzeESGReport: when the
parsed response carries a flagged_statements field, the model's
confidence_score is replaced by calculateGreenwashingScore and the
classification is recomputed from the new score at threshold 70; when the
field is absent the parsed response is returned as is. -/
def analyzeESGReportPost (parsedResult : ParsedResult) : ParsedResult :=
  match parsedResult.flagged_statements with
  | none => parsedResult
  | some stmts =>
    let score := calculateGreenwashingScore stmts
    let cls := if score > 70 then "Major" else "Minor"
    { parsedResult with confidence_score := score, classification := cls }

/-- Store holding one record whose persisted classification disagrees with
its score: "f" maps to Minor with score 90. -/
def stC1 : LocalStorage :=
  { readFails := false, writeFails := false,
    analysisResults := StoreCell.stored
      ([("f", { classification := Classification.Minor,
                confidenceScore := 90 })]),
    sections := StoreCell.absent }

/-- Four Major flagged statements: the calculator scores them 10 + 60 =
70, exactly on the far side of the two thresholds 55 and 70. -/
def stmtsC2 : List FlaggedStatement :=
  [{ risk_level := some "Major" }, { risk_level := some "Major" },
   { risk_level := some "Major" }, { risk_level := some "Major" }]

/-- A parsed model response with four Major flagged statements and a
model-supplied score and label. -/
def pC2 : ParsedResult :=
  { confidence_score := 99, classification := "Minor",
    flagged_statements := some stmtsC2 }

/-- An initially empty store with a working storage layer. -/
def stEx : LocalStorage :=
  { readFails := false, writeFails := false,
    analysisResults := StoreCell.absent, sections := StoreCell.absent }

/-- The store after saving a score-90 record for "f" into stEx. -/
def stEx1 : LocalStorage :=
  { readFails := false, writeFails := false,
    analysisResults := StoreCell.stored
      ([("f", { classification := Classification.Major,
                confidenceScore := 90 })]),
    sections := StoreCell.absent }

/-- A one-element list whose entry has an unrecognized risk level. -/
def lC4 : List FlaggedStatement := [{ risk_level := some "Governance" }]

/-- Store whose sections are A containing report "r" and B empty. -/
def stC5 : LocalStorage :=
  { readFails := false, writeFails := false,
    analysisResults := StoreCell.absent,
    sections := StoreCell.stored
      ([{ id := "A", name := "Section A", reports := ["r"] },
        { id := "B", name := "Section B", reports := [] }]) }

/-- Store whose analysis-results key holds unparseable text. -/
def stC6 : LocalStorage :=
  { readFails := false, writeFails := false,
    analysisResults := StoreCell.corrupt, sections := StoreCell.absent }

/-- Store with one record whose storage layer rejects every write. -/
def stC7 : LocalStorage :=
  { readFails := false, writeFails := true,
    analysisResults := StoreCell.stored
      ([("r", { classification := Classification.Major,
                confidenceScore := 60 })]),
    sections := StoreCell.absent }

/-- A one-element list whose entry has risk level Minor. -/
def lC8 : List FlaggedStatement := [{ risk_level := some "Minor" }]

/-- A flagged statement with risk level Major. -/
def sC8 : FlaggedStatement := { risk_level := some "Major" }

/-- A one-element list whose entry has no risk level at all. -/
def lC10 : List FlaggedStatement := [{ risk_level := none }]

end ASGenius

namespace ASGenius

/-! Helper lemmas shared by the claim theorems. -/

/-- A count of filtered statements, cast to Int, is nonnegative. -/
theorem majorCount_nonneg (l : List FlaggedStatement) : 0 ≤ majorCount l :=
  Int.natCast_nonneg _

/-- A count of filtered statements, cast to Int, is nonnegative. -/
theorem minorCount_nonneg (l : List FlaggedStatement) : 0 ≤ minorCount l :=
  Int.natCast_nonneg _

/-- On a nonempty list the score is the capped weighted sum. -/
theorem score_eq_of_ne_nil (l : List FlaggedStatement) (h : l ≠ []) :
    calculateGreenwashingScore l =
      min (10 + majorCount l * 15 + minorCount l * 5) 100 := by
  unfold calculateGreenwashingScore
  rw [if_neg (by simp [h])]

/-- The score of any list of flagged statements is nonnegative. -/
theorem score_nonneg (l : List FlaggedStatement) :
    0 ≤ calculateGreenwashingScore l := by
  unfold calculateGreenwashingScore
  split
  · exact le_refl 0
  · have h1 := majorCount_nonneg l
    have h2 := minorCount_nonneg l
    omega

/-- Appending one statement changes the Major count by one exactly when
its risk level is Major. -/
theorem majorCount_append_one (l : List FlaggedStatement)
    (s : FlaggedStatement) :
    majorCount (l ++ [s]) =
      majorCount l + (if s.risk_level = some "Major" then 1 else 0) := by
  unfold majorCount
  rw [List.filter_append]
  by_cases h : s.risk_level = some "Major" <;>
    simp [h, List.filter]

/-- Appending one statement changes the Minor count by one exactly when
its risk level is Minor. -/
theorem minorCount_append_one (l : List FlaggedStatement)
    (s : FlaggedStatement) :
    minorCount (l ++ [s]) =
      minorCount l + (if s.risk_level = some "Minor" then 1 else 0) := by
  unfold minorCount
  rw [List.filter_append]
  by_cases h : s.risk_level = some "Minor" <;>
    simp [h, List.filter]

/-- Appending any single statement never lowers the score. -/
theorem score_le_score_append (l : List FlaggedStatement)
    (s : FlaggedStatement) :
    calculateGreenwashingScore l ≤ calculateGreenwashingScore (l ++ [s]) := by
  by_cases hl : l = []
  · subst hl
    simp only [List.nil_append]
    have h0 : calculateGreenwashingScore [] = 0 := by
      unfold calculateGreenwashingScore
      rfl
    rw [h0]
    exact score_nonneg [s]
  · have hM := majorCount_nonneg l
    have hm := minorCount_nonneg l
    have h1 := majorCount_append_one l s
    have h2 := minorCount_append_one l s
    rw [score_eq_of_ne_nil l hl,
      score_eq_of_ne_nil (l ++ [s]) (by simp), h1, h2]
    by_cases hsM : s.risk_level = some "Major"
    · rw [if_pos hsM] at h1
      rw [if_neg (by rw [hsM]; simp)] at h2
      omega
    · rw [if_neg hsM] at h1
      by_cases hsm : s.risk_level = some "Minor"
      · rw [if_pos hsm] at h2
        omega
      · rw [if_neg hsm] at h2
        omega

/-- Updating a key makes it map to the written value. -/
theorem lookupR_setKey (m : List (String × AnalysisResult)) (k : String)
    (v : AnalysisResult) : lookupR (setKey m k v) k = some v := by
  induction m with
  | nil => simp [setKey, lookupR]
  | cons p rest ih =>
    by_cases h : p.1 = k
    · simp [setKey, h, lookupR]
    · simp [setKey, h, lookupR, ih]

end ASGenius

namespace ASGenius

/-- C4: calculateGreenwashingScore returns exactly 0 on the empty sequence
and otherwise min(10 + 15*majorCount + 5*minorCount, 100); the result is
always in [0, 100]; entries whose risk level is neither Major nor Minor
increment neither counter. Being a total Lean function, it never raises. -/
theorem c4_score_formula (l : List FlaggedStatement) :
    (l = [] → calculateGreenwashingScore l = 0) ∧
    (l ≠ [] → calculateGreenwashingScore l =
      min (10 + 15 * majorCount l + 5 * minorCount l) 100) ∧
    (0 ≤ calculateGreenwashingScore l ∧ calculateGreenwashingScore l ≤ 100) ∧
    (∀ s : FlaggedStatement, s.risk_level ≠ some "Major" →
      s.risk_level ≠ some "Minor" →
      majorCount (l ++ [s]) = majorCount l ∧
      minorCount (l ++ [s]) = minorCount l) := by
  refine ⟨?_, ?_, ?_, ?_⟩
  · intro h
    subst h
    rfl
  · intro h
    rw [score_eq_of_ne_nil l h]
    ring_nf
  · refine ⟨score_nonneg l, ?_⟩
    unfold calculateGreenwashingScore
    split
    · norm_num
    · have h1 := majorCount_nonneg l
      have h2 := minorCount_nonneg l
      omega
  · intro s h1 h2
    have hM := majorCount_append_one l s
    have hm := minorCount_append_one l s
    rw [if_neg h1] at hM
    rw [if_neg h2] at hm
    omega

/-- C4 witness: the formula conjunct applied to a concrete one-element
list whose entry carries an unrecognized risk level. -/
theorem c4_score_formula_witness :
    calculateGreenwashingScore lC4 =
      min (10 + 15 * majorCount lC4 + 5 * minorCount lC4) 100 :=
  (c4_score_formula lC4).2.1 (by decide)

/-- C8: appending one more flagged statement with risk level Major never
decreases the score, and likewise for Minor. -/
theorem c8_score_monotone (l : List FlaggedStatement)
    (s : FlaggedStatement) :
    (s.risk_level = some "Major" →
      calculateGreenwashingScore l ≤
        calculateGreenwashingScore (l ++ [s])) ∧
    (s.risk_level = some "Minor" →
      calculateGreenwashingScore l ≤
        calculateGreenwashingScore (l ++ [s])) :=
  ⟨fun _ => score_le_score_append l s, fun _ => score_le_score_append l s⟩

/-- C8 witness: appending a Major statement to a concrete one-element
Minor list does not decrease the score. -/
theorem c8_score_monotone_witness :
    calculateGreenwashingScore lC8 ≤
      calculateGreenwashingScore (lC8 ++ [sC8]) :=
  (c8_score_monotone lC8 sC8).1 rfl

/-- C10: on any nonempty sequence the score is at least the base 10, so
the score is never strictly between 0 and 10. -/
theorem c10_score_floor (l : List FlaggedStatement) :
    (l ≠ [] → 10 ≤ calculateGreenwashingScore l) ∧
    (calculateGreenwashingScore l = 0 ∨
      10 ≤ calculateGreenwashingScore l) := by
  have key : l ≠ [] → 10 ≤ calculateGreenwashingScore l := by
    intro h
    rw [score_eq_of_ne_nil l h]
    have h1 := majorCount_nonneg l
    have h2 := minorCount_nonneg l
    omega
  refine ⟨key, ?_⟩
  by_cases h : l = []
  · subst h
    left
    rfl
  · right
    exact key h

/-- C10 witness: a concrete one-element list with no recognized risk level
still scores at least 10. -/
theorem c10_score_floor_witness : 10 ≤ calculateGreenwashingScore lC10 :=
  (c10_score_floor lC10).1 (by decide)

end ASGenius

namespace ASGenius

/-- C2 counterexample: on a parsed response with four Major flagged
statements the recomputed score is 70, which exceeds the claimed threshold
55, yet analyzeESGReportPost labels the result "Minor" because the code
compares against 70, not 55. -/
theorem c2_counterexample_seventy :
    (analyzeESGReportPost pC2).confidence_score = 70 ∧
    (55 : Int) < (analyzeESGReportPost pC2).confidence_score ∧
    (analyzeESGReportPost pC2).classification = "Minor" := by
  refine ⟨rfl, by decide, rfl⟩

/-- C2 amended: when the parsed response carries a flagged_statements
field, the model-supplied confidence score is replaced by the Score
Calculator output and the classification is Major exactly when that
recomputed score exceeds 70; when the field is absent the model-supplied
score and label are returned untouched. -/
theorem c2_override_recomputes (p : ParsedResult) :
    (∀ stmts, p.flagged_statements = some stmts →
      (analyzeESGReportPost p).confidence_score =
        calculateGreenwashingScore stmts ∧
      ((analyzeESGReportPost p).classification = "Major" ↔
        calculateGreenwashingScore stmts > 70)) ∧
    (p.flagged_statements = none → analyzeESGReportPost p = p) := by
  constructor
  · intro stmts hs
    unfold analyzeESGReportPost
    rw [hs]
    refine ⟨rfl, ?_⟩
    by_cases h : calculateGreenwashingScore stmts > 70
    · simp [h]
    · simp only [if_neg h]
      constructor
      · intro hx
        exact absurd hx (by decide)
      · intro hx
        exact absurd hx h
  · intro hn
    unfold analyzeESGReportPost
    rw [hn]

/-- C2 witness: the amended theorem applied to the concrete four-Major
response. -/
theorem c2_override_recomputes_witness :
    (analyzeESGReportPost pC2).confidence_score =
      calculateGreenwashingScore stmtsC2 ∧
    ((analyzeESGReportPost pC2).classification = "Major" ↔
      calculateGreenwashingScore stmtsC2 > 70) :=
  (c2_override_recomputes pC2).1 stmtsC2 rfl

end ASGenius

namespace ASGenius

/-- C1 counterexample: on a store whose persisted record for "f" holds
classification Minor with score 90, getAnalysisResult returns that record
unchanged, so the returned classification is Minor although the returned
score exceeds 55 — the single-record read path does not recompute. -/
theorem c1_counterexample_get_stale :
    (getAnalysisResult "f" stC1).1 =
      some { classification := Classification.Minor,
             confidenceScore := 90 } ∧
    ¬ (Classification.Minor = Classification.Major ↔ (90 : Int) > 55) := by
  refine ⟨rfl, by decide⟩

/-- C1 amended: only getAllAnalysisResults recomputes classification on
read — every record it returns satisfies classification = Major iff
score > 55 — while getAnalysisResult returns the stored record exactly as
persisted, with no recomputation. -/
theorem c1_read_paths (st : LocalStorage) :
    (∀ k r, (k, r) ∈ (getAllAnalysisResults st).1 →
      (r.classification = Classification.Major ↔ r.confidenceScore > 55)) ∧
    (∀ m fileId, readCell st.readFails st.analysisResults [] =
        Except.ok m →
      (getAnalysisResult fileId st).1 = lookupR m fileId) := by
  constructor
  · intro k r hmem
    unfold getAllAnalysisResults at hmem
    cases hr : readCell st.readFails st.analysisResults [] with
    | error e =>
      rw [hr] at hmem
      simp at hmem
    | ok results =>
      rw [hr] at hmem
      simp only [List.mem_map] at hmem
      obtain ⟨p, hp, heq⟩ := hmem
      by_cases hc : p.2.confidenceScore > 55
      · rw [if_pos hc] at heq
        obtain ⟨h1, h2⟩ := Prod.mk.injEq .. ▸ heq
        subst h2
        simpa using hc
      · rw [if_neg hc] at heq
        obtain ⟨h1, h2⟩ := Prod.mk.injEq .. ▸ heq
        subst h2
        constructor
        · intro hx
          exact absurd hx (by simp)
        · intro hx
          exact absurd hx hc
  · intro m fileId hm
    unfold getAnalysisResult
    rw [hm]

/-- C1 amended witness: applied to the concrete store stC1 — the
recomputed record returned by getAll satisfies the invariant, and get
returns exactly the stored map's lookup. -/
theorem c1_read_paths_witness :
    (({ classification := Classification.Major,
        confidenceScore := 90 } : AnalysisResult).classification =
      Classification.Major ↔
      ({ classification := Classification.Major,
         confidenceScore := 90 } : AnalysisResult).confidenceScore > 55) ∧
    (getAnalysisResult "f" stC1).1 =
      lookupR [("f", { classification := Classification.Minor,
                       confidenceScore := 90 })] "f" :=
  ⟨(c1_read_paths stC1).1 "f"
      { classification := Classification.Major, confidenceScore := 90 }
      (by decide),
   (c1_read_paths stC1).2
      [("f", { classification := Classification.Minor,
               confidenceScore := 90 })] "f" rfl⟩

/-- C3: whenever saveAnalysisResult returns successfully, the stored map
holds, at the saved file id, the record whose score is the caller's score
and whose classification is Major exactly when that score exceeds 55,
regardless of the classification the caller supplied. -/
theorem c3_save_recomputes (st : LocalStorage) (fileId : String)
    (result : AnalysisResult) (st1 : LocalStorage)
    (h : saveAnalysisResult fileId result st = Except.ok st1) :
    ∃ m, st1.analysisResults = StoreCell.stored m ∧
      lookupR m fileId = some
        { classification :=
            if result.confidenceScore > 55 then Classification.Major
            else Classification.Minor,
          confidenceScore := result.confidenceScore } := by
  unfold saveAnalysisResult at h
  cases hr : readCell st.readFails st.analysisResults [] with
  | error e =>
    rw [hr] at h
    simp at h
  | ok existing =>
    rw [hr] at h
    dsimp only at h
    by_cases hw : st.writeFails = true
    · rw [if_pos hw] at h
      cases h
    · rw [if_neg hw] at h
      injection h with h1
      subst h1
      refine ⟨_, rfl, ?_⟩
      rw [lookupR_setKey]
      by_cases hc : result.confidenceScore > 55 <;> simp [hc]

/-- C3 witness: saving a record labelled Minor with score 90 into the
empty store yields the store stEx1 holding it relabelled Major. -/
theorem c3_save_recomputes_witness :
    ∃ m, stEx1.analysisResults = StoreCell.stored m ∧
      lookupR m "f" = some
        { classification :=
            if (90 : Int) > 55 then Classification.Major
            else Classification.Minor,
          confidenceScore := (90 : Int) } :=
  c3_save_recomputes stEx "f"
    { classification := Classification.Minor, confidenceScore := 90 }
    stEx1 rfl

end ASGenius

namespace ASGenius

/-- C5: evaluation at the failing input. With report "r" in section A and
section B empty, addReportToSection writes back a stale snapshot taken
before the removal, leaving "r" a member of both A and B — the claimed
move semantics do not hold. -/
theorem c5_stale_snapshot_eval :
    addReportToSection "r" "B" stC5 = Except.ok
      { readFails := false, writeFails := false,
        analysisResults := StoreCell.absent,
        sections := StoreCell.stored
          ([{ id := "A", name := "Section A", reports := ["r"] },
            { id := "B", name := "Section B", reports := ["r"] }]) } := by
  rfl

/-- C6: when the persistent store is unreadable or its contents are not
parseable, getAnalysisResult returns null and getAllAnalysisResults
returns the empty map instead of propagating an error. -/
theorem c6_reads_degrade (st : LocalStorage) (fileId : String)
    (h : st.readFails = true ∨ st.analysisResults = StoreCell.corrupt) :
    (getAnalysisResult fileId st).1 = none ∧
    (getAllAnalysisResults st).1 = [] := by
  have hr : readCell st.readFails st.analysisResults
      ([] : List (String × AnalysisResult)) = Except.error () := by
    rcases h with h | h
    · simp [readCell, h]
    · cases hf : st.readFails <;> simp [readCell, hf, h]
  constructor
  · unfold getAnalysisResult
    rw [hr]
  · unfold getAllAnalysisResults
    rw [hr]

/-- C6 witness: on the concrete store with corrupt contents both reads
return the empty result. -/
theorem c6_reads_degrade_witness :
    (getAnalysisResult "f" stC6).1 = none ∧
    (getAllAnalysisResults stC6).1 = [] :=
  c6_reads_degrade stC6 "f" (Or.inr rfl)

/-- C7 counterexample: on a store whose storage layer rejects writes,
clearAllAnalysisResults still returns success with the store unchanged —
the reset operation swallows the write failure instead of surfacing it. -/
theorem c7_counterexample_clear_swallows :
    stC7.writeFails = true ∧
    clearAllAnalysisResults stC7 = Except.ok stC7 :=
  ⟨rfl, rfl⟩

/-- C7 amended: saveAnalysisResult and deleteReport surface a failure to
their immediate caller whenever the write cannot be committed, but
clearAllAnalysisResults catches the failure and returns success with the
store unchanged. -/
theorem c7_write_failure_paths (st : LocalStorage)
    (fileId reportId : String) (result : AnalysisResult)
    (h : st.writeFails = true) :
    saveAnalysisResult fileId result st =
      Except.error "Failed to save analysis result" ∧
    deleteReport reportId st = Except.error "Failed to delete report" ∧
    clearAllAnalysisResults st = Except.ok st := by
  refine ⟨?_, ?_, ?_⟩
  · unfold saveAnalysisResult
    cases hr : readCell st.readFails st.analysisResults [] with
    | error e => rfl
    | ok existing =>
      dsimp only
      rw [if_pos h]
  · unfold deleteReport
    cases hr : readCell st.readFails st.analysisResults [] with
    | error e => rfl
    | ok results =>
      dsimp only
      cases hl : lookupR results reportId with
      | some r =>
        rw [if_pos h]
      | none =>
        unfold removeReportFromAllSections
        dsimp only
        rw [if_pos h]
  · unfold clearAllAnalysisResults
    rw [if_pos h]

/-- C7 amended witness: applied to the concrete store stC7 whose writes
fail. -/
theorem c7_write_failure_paths_witness :
    saveAnalysisResult "f"
      { classification := Classification.Minor, confidenceScore := 10 }
      stC7 = Except.error "Failed to save analysis result" ∧
    deleteReport "r" stC7 = Except.error "Failed to delete report" ∧
    clearAllAnalysisResults stC7 = Except.ok stC7 :=
  c7_write_failure_paths stC7 "f" "r"
    { classification := Classification.Minor, confidenceScore := 10 } rfl

/-- C9: the read operations never modify the persistent store — the state
component returned by getAnalysisResult and getAllAnalysisResults is
exactly the input state, so any persisted record, including one whose
stored classification disagrees with its score, is unchanged by reads. -/
theorem c9_reads_frame (st : LocalStorage) (fileId : String) :
    (getAnalysisResult fileId st).2 = st ∧
    (getAllAnalysisResults st).2 = st := by
  constructor
  · unfold getAnalysisResult
    cases readCell st.readFails st.analysisResults [] <;> rfl
  · unfold getAllAnalysisResults
    cases readCell st.readFails st.analysisResults [] <;> rfl

end ASGenius
